import Mathlib

/-!
Shallow embedding of the FreeTrack-Drone person-following system.

Sources embedded here:
* `src/FollowDistances/tracking_profiles.py` — `DistanceProfile` and the four
  presets, `calculate_movement_vector`, `is_at_desired_distance`, `get_profile`;
* `src/vision_tracker.py` — `_update_target_position` (pixel → NED position via
  the pinhole model) and the detect/track state machine of `_tracking_loop`;
* `src/follow_controller.py` — one tick of the `follow_loop` inside
  `start_following`, and `change_tracking_distance`.

Geometry over the profiles is embedded over `ℝ` (the Python code computes with
floats, trigonometry and square roots); the vision-side state machine is
embedded over `ℚ` so that all of its predicates are decidable and every
concrete run can be evaluated.  Python's `ZeroDivisionError` is modelled by an
`Except Unit` result on the functions that divide by a runtime value.
-/

namespace FreeTrack

/-- `DistanceProfile` record: the five configuration fields stored by
`DistanceProfile.__init__` (tracking_profiles.py lines 10–27).  `altitude` is
optional, `None` meaning "hold current altitude". -/
structure DistanceProfile where
  target_distance : ℝ
  altitude : Option ℝ
  horizontal_offset : ℝ
  distance_tolerance : ℝ
  max_speed : ℝ

/-- `DistanceProfile.__init__` (tracking_profiles.py lines 10–29): the body
only assigns the five arguments to the five fields; there is no validation of
any argument, so construction is a total function of the arguments. -/
def DistanceProfile.init (target_distance : ℝ) (altitude : Option ℝ)
    (horizontal_offset distance_tolerance max_speed : ℝ) : DistanceProfile :=
  ⟨target_distance, altitude, horizontal_offset, distance_tolerance, max_speed⟩

/-- `np.arctan2 y x`: the angle of the point `(x, y)`, embedded as the
complex argument of `x + y·i` (range `(-π, π]`, and `arctan2 0 0 = 0`, matching
numpy). -/
noncomputable def arctan2 (y x : ℝ) : ℝ :=
  Complex.arg ⟨x, y⟩

/-- Lines 43–65 of `calculate_movement_vector` (tracking_profiles.py): the raw
displacement `(move_x, move_y, move_z)` from the current position to the
desired position (behind the target along the bearing, plus the perpendicular
horizontal offset; vertical component `altitude - current.z` when `altitude`
is set, else `0`). -/
noncomputable def rawDisplacement (p : DistanceProfile) (current_position target_position : ℝ × ℝ × ℝ) :
    ℝ × ℝ × ℝ :=
  let dx := target_position.1 - current_position.1
  let dy := target_position.2.1 - current_position.2.1
  let dz := match p.altitude with
    | none => 0
    | some a => a - current_position.2.2
  let angle_to_target := arctan2 dy dx
  let offset_angle := angle_to_target + Real.pi
  let perpendicular_angle := angle_to_target + Real.pi / 2
  let desired_x := target_position.1 + Real.cos offset_angle * p.target_distance
      + Real.cos perpendicular_angle * p.horizontal_offset
  let desired_y := target_position.2.1 + Real.sin offset_angle * p.target_distance
      + Real.sin perpendicular_angle * p.horizontal_offset
  (desired_x - current_position.1, desired_y - current_position.2.1, dz)

/-- Euclidean magnitude of a 3-vector, `np.sqrt (x**2 + y**2 + z**2)`. -/
noncomputable def mag3 (v : ℝ × ℝ × ℝ) : ℝ :=
  Real.sqrt (v.1 ^ 2 + v.2.1 ^ 2 + v.2.2 ^ 2)

/-- `DistanceProfile.calculate_movement_vector` (tracking_profiles.py lines
31–77): the raw displacement, scaled by `min max_speed magnitude / magnitude`
when the magnitude is positive, returned unscaled (it is then the zero vector)
otherwise. -/
noncomputable def calculate_movement_vector (p : DistanceProfile)
    (current_position target_position : ℝ × ℝ × ℝ) : ℝ × ℝ × ℝ :=
  let m := rawDisplacement p current_position target_position
  let move_magnitude := mag3 m
  if move_magnitude > 0 then
    let scale_factor := min p.max_speed move_magnitude / move_magnitude
    (m.1 * scale_factor, m.2.1 * scale_factor, m.2.2 * scale_factor)
  else
    m

/-- `DistanceProfile.is_at_desired_distance` (tracking_profiles.py lines
79–85): the horizontal distance computed from the first two coordinates is
within `distance_tolerance` of `target_distance`. -/
noncomputable def is_at_desired_distance (p : DistanceProfile)
    (current_position target_position : ℝ × ℝ × ℝ) : Prop :=
  |Real.sqrt ((target_position.1 - current_position.1) ^ 2
      + (target_position.2.1 - current_position.2.1) ^ 2) - p.target_distance|
    ≤ p.distance_tolerance

/-- `CloseProfile()` (tracking_profiles.py lines 88–92). -/
noncomputable def CloseProfile : DistanceProfile :=
  DistanceProfile.init 3 (some (5 / 2)) 0 (3 / 10) (3 / 2)

/-- `MediumProfile()` (tracking_profiles.py lines 95–99). -/
noncomputable def MediumProfile : DistanceProfile :=
  DistanceProfile.init 5 (some 3) 0 (1 / 2) 2

/-- `FarProfile()` (tracking_profiles.py lines 102–106). -/
noncomputable def FarProfile : DistanceProfile :=
  DistanceProfile.init 10 (some 4) 0 1 3

/-- `VeryFarProfile()` (tracking_profiles.py lines 109–113). -/
noncomputable def VeryFarProfile : DistanceProfile :=
  DistanceProfile.init 20 (some 8) 0 2 5

/-- `get_profile` (tracking_profiles.py lines 116–125). -/
noncomputable def get_profile (distance : ℝ) : DistanceProfile :=
  if distance ≤ 3 then CloseProfile
  else if distance ≤ 5 then MediumProfile
  else if distance ≤ 10 then FarProfile
  else VeryFarProfile

/-- `FollowController.change_tracking_distance` (follow_controller.py lines
93–97): replaces the active profile by `get_profile new_distance` and returns
it.  The returned (= newly active) profile is all the state it touches. -/
noncomputable def change_tracking_distance (new_distance : ℝ) : DistanceProfile :=
  get_profile new_distance

/-- One tick of `follow_loop` (follow_controller.py lines 144–171) after the
target position has been read from the vision system: the velocity command
sent this tick, paired with a flag recording whether
`calculate_movement_vector` was invoked.  An absent target short-circuits to
the hover command `(0, 0, 0)` without touching the profile. -/
noncomputable def followTick (p : DistanceProfile) (current_position : ℝ × ℝ × ℝ)
    (target_position : Option (ℝ × ℝ × ℝ)) : (ℝ × ℝ × ℝ) × Bool :=
  match target_position with
  | none => ((0, 0, 0), false)
  | some t => (calculate_movement_vector p current_position t, true)

/-- Spec-side formulation for C7: the horizontal projection of a NED position,
as a point of the Euclidean plane, so that the spec's "horizontal Euclidean
distance between current and target" is literally `dist` in
`EuclideanSpace ℝ (Fin 2)`. -/
noncomputable def horizontalPoint (pos : ℝ × ℝ × ℝ) : EuclideanSpace ℝ (Fin 2) :=
  (WithLp.equiv 2 (Fin 2 → ℝ)).symm ![pos.1, pos.2.1]

/-- A bounding box `(x, y, w, h)` as handled by `vision_tracker.py` (pixel
coordinates; integers when produced by `_detect_person`, floats when produced
by `tracker.update`, so the fields are embedded as rationals). -/
structure BoundingBox where
  x : ℚ
  y : ℚ
  w : ℚ
  h : ℚ
deriving DecidableEq

/-- `VisionTracker._update_target_position` (vision_tracker.py lines 187–224):
`None` box stores `None`; otherwise the pinhole model
`distance_z = real_width * focal_length / w` gives the forward (north)
component, `-pos_x` the east component and the fixed `-1.7` the down
component.  The Python body divides by `w` with no guard, so a zero-width box
raises `ZeroDivisionError`, modelled by the `Except.error` branch; `w // 2`
and `h // 2` are Python floor divisions. -/
def update_target_position (focal_length real_width : ℚ) (frame_center : ℚ × ℚ)
    (bbox : Option BoundingBox) : Except Unit (Option (ℚ × ℚ × ℚ)) :=
  match bbox with
  | none => .ok none
  | some b =>
    if b.w = 0 then .error () else
    let center_x : ℚ := b.x + (⌊b.w / 2⌋ : ℤ)
    let center_y : ℚ := b.y + (⌊b.h / 2⌋ : ℤ)
    let distance_z := real_width * focal_length / b.w
    let pixel_to_meter := real_width / b.w
    let pos_x := (center_x - frame_center.1) * pixel_to_meter
    let _pos_y := (center_y - frame_center.2) * pixel_to_meter
    .ok (some (distance_z, -pos_x, -(17 / 10)))

/-- Configuration of the tracking loop: `detection_interval` from
`VisionTracker.__init__`. -/
structure TrackerConfig where
  detection_interval : ℚ

/-- The mutable state read and written by one iteration of
`VisionTracker._tracking_loop` (vision_tracker.py lines 104–147):
`self.target_bbox`, `self.last_detection_time`, `self.target_position`, and
the loop-local `tracking_initialized`. -/
structure TrackerState where
  target_bbox : Option BoundingBox
  last_detection_time : ℚ
  tracking_initialized : Bool
  target_position : Option (ℚ × ℚ × ℚ)
deriving DecidableEq

/-- What one loop iteration did, for stating temporal properties: a detection
attempt that found a person, a detection attempt that found none, a successful
tracker update, a failed tracker update, or nothing (tracker not yet
initialized). -/
inductive TrackAction where
  | detected
  | detectionEmpty
  | trackerUpdated
  | trackerFailed
  | idle
deriving DecidableEq

/-- One iteration of `VisionTracker._tracking_loop` (vision_tracker.py lines
109–147) after a frame was read successfully.  Inputs of the iteration:
`now` (`time.time()`), `det` (what `_detect_person` would return on this
frame) and `trk` (what `self.tracker.update` would return).  `run_detection`
is `(now - last_detection_time) >= detection_interval`; detection runs when it
holds or when there is no current box, otherwise a tracker update runs when
tracking was initialized; a failed tracker update only resets
`last_detection_time` to `0`.  The `Except` propagates the unguarded division
of `_update_target_position`. -/
def tracking_step (cfg : TrackerConfig) (focal_length real_width : ℚ)
    (frame_center : ℚ × ℚ) (s : TrackerState) (now : ℚ)
    (det : Option BoundingBox) (trk : Bool × BoundingBox) :
    Except Unit (TrackerState × TrackAction) :=
  let run_detection := cfg.detection_interval ≤ now - s.last_detection_time
  if run_detection ∨ s.target_bbox = none then
    match det with
    | some b => do
      let tp ← update_target_position focal_length real_width frame_center (some b)
      .ok ({ target_bbox := some b, last_detection_time := now,
             tracking_initialized := true, target_position := tp }, .detected)
    | none => .ok ({ s with target_bbox := none }, .detectionEmpty)
  else if s.tracking_initialized then
    match trk with
    | (true, b) => do
      let tp ← update_target_position focal_length real_width frame_center (some b)
      .ok ({ s with target_bbox := some b, target_position := tp }, .trackerUpdated)
    | (false, _) => .ok ({ s with last_detection_time := 0 }, .trackerFailed)
  else
    .ok (s, .idle)

/-! ### Helper lemmas about `mag3` and `calculate_movement_vector` -/

theorem mag3_nonneg (v : ℝ × ℝ × ℝ) : 0 ≤ mag3 v :=
  Real.sqrt_nonneg _

theorem mag3_eq_zero (v : ℝ × ℝ × ℝ) : mag3 v = 0 ↔ v = (0, 0, 0) := by
  constructor
  · intro h
    unfold mag3 at h
    rw [Real.sqrt_eq_zero'] at h
    have h1 : v.1 = 0 := by nlinarith [sq_nonneg v.1, sq_nonneg v.2.1, sq_nonneg v.2.2]
    have h2 : v.2.1 = 0 := by nlinarith [sq_nonneg v.1, sq_nonneg v.2.1, sq_nonneg v.2.2]
    have h3 : v.2.2 = 0 := by nlinarith [sq_nonneg v.1, sq_nonneg v.2.1, sq_nonneg v.2.2]
    exact Prod.ext h1 (Prod.ext h2 h3)
  · intro h
    rw [h]
    unfold mag3
    norm_num

theorem mag3_mul_right (v : ℝ × ℝ × ℝ) (s : ℝ) (hs : 0 ≤ s) :
    mag3 (v.1 * s, v.2.1 * s, v.2.2 * s) = mag3 v * s := by
  unfold mag3
  have h : (v.1 * s) ^ 2 + (v.2.1 * s) ^ 2 + (v.2.2 * s) ^ 2
      = (v.1 ^ 2 + v.2.1 ^ 2 + v.2.2 ^ 2) * s ^ 2 := by ring
  rw [h, Real.sqrt_mul (by positivity), Real.sqrt_sq hs]

theorem calculate_movement_vector_eq (p : DistanceProfile)
    (current_position target_position : ℝ × ℝ × ℝ) :
    calculate_movement_vector p current_position target_position =
      if 0 < mag3 (rawDisplacement p current_position target_position) then
        ((rawDisplacement p current_position target_position).1 *
            (min p.max_speed (mag3 (rawDisplacement p current_position target_position)) /
              mag3 (rawDisplacement p current_position target_position)),
         (rawDisplacement p current_position target_position).2.1 *
            (min p.max_speed (mag3 (rawDisplacement p current_position target_position)) /
              mag3 (rawDisplacement p current_position target_position)),
         (rawDisplacement p current_position target_position).2.2 *
            (min p.max_speed (mag3 (rawDisplacement p current_position target_position)) /
              mag3 (rawDisplacement p current_position target_position)))
      else rawDisplacement p current_position target_position :=
  rfl

/-- C1: for every profile with positive `max_speed` and all positions, the
vector returned by `calculate_movement_vector` has Euclidean magnitude at most
`max_speed`, is a non-negative scalar multiple of the raw displacement
(desired position minus current position), and is exactly `(0, 0, 0)` when the
raw displacement has magnitude zero. -/
theorem calculate_movement_vector_bounded (p : DistanceProfile)
    (current_position target_position : ℝ × ℝ × ℝ) (h : 0 < p.max_speed) :
    mag3 (calculate_movement_vector p current_position target_position) ≤ p.max_speed ∧
    (∃ c : ℝ, 0 ≤ c ∧
      calculate_movement_vector p current_position target_position =
        (c * (rawDisplacement p current_position target_position).1,
         c * (rawDisplacement p current_position target_position).2.1,
         c * (rawDisplacement p current_position target_position).2.2)) ∧
    (mag3 (rawDisplacement p current_position target_position) = 0 →
      calculate_movement_vector p current_position target_position = (0, 0, 0)) := by
  rw [calculate_movement_vector_eq]
  by_cases hmag : 0 < mag3 (rawDisplacement p current_position target_position)
  · rw [if_pos hmag]
    have hne : mag3 (rawDisplacement p current_position target_position) ≠ 0 := ne_of_gt hmag
    have hs0 : 0 ≤ min p.max_speed (mag3 (rawDisplacement p current_position target_position)) /
        mag3 (rawDisplacement p current_position target_position) :=
      div_nonneg (le_min h.le hmag.le) hmag.le
    refine ⟨?_, ⟨_, hs0, by simp [mul_comm]⟩, fun h0 => absurd h0 hne⟩
    rw [mag3_mul_right _ _ hs0, mul_div_assoc']
    rw [mul_comm, mul_div_assoc, div_self hne, mul_one]
    exact min_le_left _ _
  · rw [if_neg hmag]
    have h0 : mag3 (rawDisplacement p current_position target_position) = 0 :=
      le_antisymm (not_lt.mp hmag) (mag3_nonneg _)
    have hv : rawDisplacement p current_position target_position = (0, 0, 0) :=
      (mag3_eq_zero _).mp h0
    refine ⟨?_, ⟨0, le_refl 0, by rw [hv]; norm_num⟩, fun _ => hv⟩
    rw [h0]
    exact h.le

/-- Witness for C1 at the concrete profile of spec §8 (`target_distance = 5`,
no altitude, zero offset, `max_speed = 2`), `current = (0,0,0)`,
`target = (10,0,0)`. -/
theorem calculate_movement_vector_bounded_witness :
    0 < (DistanceProfile.init 5 none 0 (1 / 2) 2).max_speed ∧
    (mag3 (calculate_movement_vector (DistanceProfile.init 5 none 0 (1 / 2) 2)
        (0, 0, 0) (10, 0, 0)) ≤ (DistanceProfile.init 5 none 0 (1 / 2) 2).max_speed ∧
    (∃ c : ℝ, 0 ≤ c ∧
      calculate_movement_vector (DistanceProfile.init 5 none 0 (1 / 2) 2) (0, 0, 0) (10, 0, 0) =
        (c * (rawDisplacement (DistanceProfile.init 5 none 0 (1 / 2) 2) (0, 0, 0) (10, 0, 0)).1,
         c * (rawDisplacement (DistanceProfile.init 5 none 0 (1 / 2) 2) (0, 0, 0) (10, 0, 0)).2.1,
         c * (rawDisplacement (DistanceProfile.init 5 none 0 (1 / 2) 2) (0, 0, 0) (10, 0, 0)).2.2)) ∧
    (mag3 (rawDisplacement (DistanceProfile.init 5 none 0 (1 / 2) 2) (0, 0, 0) (10, 0, 0)) = 0 →
      calculate_movement_vector (DistanceProfile.init 5 none 0 (1 / 2) 2) (0, 0, 0) (10, 0, 0)
        = (0, 0, 0))) :=
  ⟨by norm_num [DistanceProfile.init],
   calculate_movement_vector_bounded _ _ _ (by norm_num [DistanceProfile.init])⟩

/-- C5: `get_profile` maps a requested distance to a preset by inclusive lower
thresholds: `d ≤ 3 → Close`, `3 < d ≤ 5 → Medium`, `5 < d ≤ 10 → Far`,
`10 < d → VeryFar`. -/
theorem get_profile_thresholds (d : ℝ) :
    (d ≤ 3 → get_profile d = CloseProfile) ∧
    (3 < d → d ≤ 5 → get_profile d = MediumProfile) ∧
    (5 < d → d ≤ 10 → get_profile d = FarProfile) ∧
    (10 < d → get_profile d = VeryFarProfile) := by
  unfold get_profile
  refine ⟨fun h => if_pos h, fun h1 h2 => ?_, fun h1 h2 => ?_, fun h1 => ?_⟩
  · rw [if_neg (not_le.mpr h1), if_pos h2]
  · rw [if_neg (not_le.mpr (by linarith)), if_neg (not_le.mpr h1), if_pos h2]
  · rw [if_neg (not_le.mpr (by linarith)), if_neg (not_le.mpr (by linarith)),
      if_neg (not_le.mpr h1)]

/-- Witness for C5: the five concrete evaluations named by the claim,
`get_profile 3 = Close`, `get_profile 3.01 = Medium`, `get_profile 5 =
Medium`, `get_profile 10 = Far`, `get_profile 10.01 = VeryFar`. -/
theorem get_profile_thresholds_witness :
    get_profile (3 : ℝ) = CloseProfile ∧
    get_profile ((301 : ℝ) / 100) = MediumProfile ∧
    get_profile (5 : ℝ) = MediumProfile ∧
    get_profile (10 : ℝ) = FarProfile ∧
    get_profile ((1001 : ℝ) / 100) = VeryFarProfile :=
  ⟨(get_profile_thresholds 3).1 (by norm_num),
   (get_profile_thresholds _).2.1 (by norm_num) (by norm_num),
   (get_profile_thresholds 5).2.1 (by norm_num) (by norm_num),
   (get_profile_thresholds 10).2.2.1 (by norm_num) (by norm_num),
   (get_profile_thresholds _).2.2.2 (by norm_num)⟩

theorem get_profile_preset_of (d : ℝ) :
    get_profile d = CloseProfile ∨ get_profile d = MediumProfile ∨
      get_profile d = FarProfile ∨ get_profile d = VeryFarProfile := by
  unfold get_profile
  rcases le_or_lt d 3 with h3 | h3
  · exact Or.inl (if_pos h3)
  rw [if_neg (not_le.mpr h3)]
  rcases le_or_lt d 5 with h5 | h5
  · exact Or.inr (Or.inl (if_pos h5))
  rw [if_neg (not_le.mpr h5)]
  rcases le_or_lt d 10 with h10 | h10
  · exact Or.inr (Or.inr (Or.inl (if_pos h10)))
  · exact Or.inr (Or.inr (Or.inr (if_neg (not_le.mpr h10))))

/-- C10: `get_profile` (and `change_tracking_distance`, which just delegates
to it) always returns one of the four fixed presets, whose `target_distance`
is `3`, `5`, `10` or `20`; in particular `get_profile 7` is the Far preset
with `target_distance = 10`, not `7`. -/
theorem get_profile_preset_valued :
    (∀ d : ℝ,
      (get_profile d = CloseProfile ∨ get_profile d = MediumProfile ∨
        get_profile d = FarProfile ∨ get_profile d = VeryFarProfile) ∧
      ((get_profile d).target_distance = 3 ∨ (get_profile d).target_distance = 5 ∨
        (get_profile d).target_distance = 10 ∨ (get_profile d).target_distance = 20) ∧
      change_tracking_distance d = get_profile d) ∧
    get_profile (7 : ℝ) = FarProfile ∧
    (get_profile (7 : ℝ)).target_distance = 10 ∧ (10 : ℝ) ≠ 7 := by
  have hfar : get_profile (7 : ℝ) = FarProfile := by
    unfold get_profile
    rw [if_neg (by norm_num), if_neg (by norm_num), if_pos (by norm_num)]
  refine ⟨fun d => ⟨get_profile_preset_of d, ?_, rfl⟩, hfar, ?_, by norm_num⟩
  · rcases get_profile_preset_of d with he | he | he | he <;> rw [he] <;>
      simp [CloseProfile, MediumProfile, FarProfile, VeryFarProfile, DistanceProfile.init]
  · rw [hfar]
    norm_num [FarProfile, DistanceProfile.init]

/-- C3 counterexample: the `DistanceProfile` constructor accepts a negative
`max_speed` and a negative `distance_tolerance` — construction is not
rejected, and the constructed profile violates `max_speed > 0` and
`distance_tolerance ≥ 0`. -/
theorem distanceProfile_init_unvalidated :
    (DistanceProfile.init 3 none 0 (-1) (-1)).max_speed = -1 ∧
    (DistanceProfile.init 3 none 0 (-1) (-1)).distance_tolerance = -1 ∧
    ¬ 0 < (DistanceProfile.init 3 none 0 (-1) (-1)).max_speed ∧
    ¬ 0 ≤ (DistanceProfile.init 3 none 0 (-1) (-1)).distance_tolerance := by
  norm_num [DistanceProfile.init]

/-- C3 amended: `DistanceProfile.__init__` performs no validation at all —
construction always succeeds and stores the five arguments verbatim, whatever
their signs. -/
theorem distanceProfile_init_stores_fields (target_distance : ℝ)
    (altitude : Option ℝ) (horizontal_offset distance_tolerance max_speed : ℝ) :
    (DistanceProfile.init target_distance altitude horizontal_offset
        distance_tolerance max_speed).target_distance = target_distance ∧
    (DistanceProfile.init target_distance altitude horizontal_offset
        distance_tolerance max_speed).altitude = altitude ∧
    (DistanceProfile.init target_distance altitude horizontal_offset
        distance_tolerance max_speed).horizontal_offset = horizontal_offset ∧
    (DistanceProfile.init target_distance altitude horizontal_offset
        distance_tolerance max_speed).distance_tolerance = distance_tolerance ∧
    (DistanceProfile.init target_distance altitude horizontal_offset
        distance_tolerance max_speed).max_speed = max_speed :=
  ⟨rfl, rfl, rfl, rfl, rfl⟩

/-- C8: on a tick where the shared target state reads as absent, the follow
loop sends exactly the zero-velocity command and does not invoke
`calculate_movement_vector` (the flag is `false`). -/
theorem followTick_absent_sends_zero (p : DistanceProfile)
    (current_position : ℝ × ℝ × ℝ) :
    followTick p current_position none = ((0, 0, 0), false) :=
  rfl

/-- C7: `is_at_desired_distance` holds iff the horizontal Euclidean distance
between the two positions differs from `target_distance` by at most
`distance_tolerance`; outside that band it is false. -/
theorem is_at_desired_distance_iff (p : DistanceProfile)
    (current_position target_position : ℝ × ℝ × ℝ) :
    is_at_desired_distance p current_position target_position ↔
      |dist (horizontalPoint current_position) (horizontalPoint target_position)
          - p.target_distance| ≤ p.distance_tolerance := by
  unfold is_at_desired_distance
  have h : dist (horizontalPoint current_position) (horizontalPoint target_position)
      = Real.sqrt ((target_position.1 - current_position.1) ^ 2
          + (target_position.2.1 - current_position.2.1) ^ 2) := by
    rw [dist_comm, EuclideanSpace.dist_eq, Fin.sum_univ_two]
    unfold horizontalPoint
    simp [Real.dist_eq, sq_abs]
  rw [h]

/-! ### C2: `calculate_movement_vector` at `current == target` -/

theorem arctan2_zero_zero : arctan2 0 0 = 0 := by
  unfold arctan2
  have h : (⟨(0 : ℝ), (0 : ℝ)⟩ : ℂ) = 0 := by
    apply Complex.ext <;> simp
  rw [h, Complex.arg_zero]

theorem rawDisplacement_self (p : DistanceProfile) (pos : ℝ × ℝ × ℝ)
    (hoff : p.horizontal_offset = 0) (halt : p.altitude = none) :
    rawDisplacement p pos pos = (-p.target_distance, 0, 0) := by
  unfold rawDisplacement
  rw [hoff, halt]
  simp [arctan2_zero_zero, Real.cos_pi, Real.sin_pi]

theorem calculate_movement_vector_self_aux (p : DistanceProfile) (pos : ℝ × ℝ × ℝ)
    (hoff : p.horizontal_offset = 0) (halt : p.altitude = none)
    (htd : 0 ≤ p.target_distance) (hms : 0 < p.max_speed) :
    calculate_movement_vector p pos pos
      = (-(min p.max_speed p.target_distance), 0, 0) := by
  rw [calculate_movement_vector_eq, rawDisplacement_self p pos hoff halt]
  have hmag : mag3 (-p.target_distance, 0, 0) = p.target_distance := by
    unfold mag3
    have h : (-p.target_distance) ^ 2 + (0 : ℝ) ^ 2 + (0 : ℝ) ^ 2
        = p.target_distance ^ 2 := by ring
    rw [h, Real.sqrt_sq htd]
  rw [hmag]
  by_cases h0 : 0 < p.target_distance
  · rw [if_pos h0]
    have hne : p.target_distance ≠ 0 := ne_of_gt h0
    simp only [zero_mul]
    congr 1
    field_simp
    ring
  · have htd0 : p.target_distance = 0 := le_antisymm (not_lt.mp h0) htd
    rw [if_neg (by rw [htd0]; exact lt_irrefl 0)]
    rw [htd0, min_comm, min_eq_left hms.le, neg_zero]

/-- C2 counterexample: for the profile with `target_distance = 5`, absent
altitude, zero horizontal offset and `max_speed = 2`, with
`current = target = (0,0,0)` the returned vector is `(-2, 0, 0)`, not the zero
vector: the code steers to the point `target_distance` behind the target even
when the drone already sits on the target. -/
theorem calculate_movement_vector_self_not_zero :
    (DistanceProfile.init 5 none 0 (1 / 2) 2).horizontal_offset = 0 ∧
    (DistanceProfile.init 5 none 0 (1 / 2) 2).altitude = none ∧
    calculate_movement_vector (DistanceProfile.init 5 none 0 (1 / 2) 2)
      (0, 0, 0) (0, 0, 0) = (-2, 0, 0) ∧
    calculate_movement_vector (DistanceProfile.init 5 none 0 (1 / 2) 2)
      (0, 0, 0) (0, 0, 0) ≠ (0, 0, 0) := by
  have h := calculate_movement_vector_self_aux (DistanceProfile.init 5 none 0 (1 / 2) 2)
    (0, 0, 0) rfl rfl (by norm_num [DistanceProfile.init]) (by norm_num [DistanceProfile.init])
  have hmin : min (DistanceProfile.init 5 none 0 (1 / 2) 2).max_speed
      (DistanceProfile.init 5 none 0 (1 / 2) 2).target_distance = 2 := by
    norm_num [DistanceProfile.init]
  rw [hmin] at h
  refine ⟨rfl, rfl, h, ?_⟩
  rw [h]
  intro hcontra
  have h2 : (-2 : ℝ) = 0 := congrArg Prod.fst hcontra
  norm_num at h2

/-- C2 amended: with `horizontal_offset = 0`, absent altitude, non-negative
`target_distance` and positive `max_speed`, `calculate_movement_vector` at
`current == target` returns `(-(min max_speed target_distance), 0, 0)` — the
zero vector exactly when `target_distance = 0`, and otherwise a speed-clamped
vector pointing straight back behind the target. -/
theorem calculate_movement_vector_self (p : DistanceProfile) (pos : ℝ × ℝ × ℝ)
    (hoff : p.horizontal_offset = 0) (halt : p.altitude = none)
    (htd : 0 ≤ p.target_distance) (hms : 0 < p.max_speed) :
    calculate_movement_vector p pos pos
      = (-(min p.max_speed p.target_distance), 0, 0) :=
  calculate_movement_vector_self_aux p pos hoff halt htd hms

/-- Witness for the amended C2 at the Close preset (`target_distance = 3`,
`max_speed = 1.5`) with altitude removed, at `current = target = (1, 2, 3)`. -/
theorem calculate_movement_vector_self_witness :
    (DistanceProfile.init 3 none 0 (3 / 10) (3 / 2)).horizontal_offset = 0 ∧
    (DistanceProfile.init 3 none 0 (3 / 10) (3 / 2)).altitude = none ∧
    0 ≤ (DistanceProfile.init 3 none 0 (3 / 10) (3 / 2)).target_distance ∧
    0 < (DistanceProfile.init 3 none 0 (3 / 10) (3 / 2)).max_speed ∧
    calculate_movement_vector (DistanceProfile.init 3 none 0 (3 / 10) (3 / 2))
        (1, 2, 3) (1, 2, 3)
      = (-(min (DistanceProfile.init 3 none 0 (3 / 10) (3 / 2)).max_speed
            (DistanceProfile.init 3 none 0 (3 / 10) (3 / 2)).target_distance), 0, 0) :=
  ⟨rfl, rfl, by norm_num [DistanceProfile.init], by norm_num [DistanceProfile.init],
   calculate_movement_vector_self _ _ rfl rfl (by norm_num [DistanceProfile.init])
     (by norm_num [DistanceProfile.init])⟩

/-! ### C6: the pinhole forward-distance model -/

/-- C6: for every box with positive width, the estimator returns a position
whose forward (north) component is `real_width * focal_length / w`, and
halving the width doubles that component. -/
theorem update_target_position_forward (focal_length real_width : ℚ)
    (frame_center : ℚ × ℚ) (x y h w : ℚ) (hw : 0 < w) :
    (∃ e : ℚ, update_target_position focal_length real_width frame_center
        (some ⟨x, y, w, h⟩)
      = .ok (some (real_width * focal_length / w, e, -(17 / 10)))) ∧
    (∃ e : ℚ, update_target_position focal_length real_width frame_center
        (some ⟨x, y, w / 2, h⟩)
      = .ok (some (2 * (real_width * focal_length / w), e, -(17 / 10)))) := by
  have hne : w ≠ 0 := ne_of_gt hw
  have hkey : ∀ w2 : ℚ, w2 ≠ 0 →
      update_target_position focal_length real_width frame_center (some ⟨x, y, w2, h⟩)
        = .ok (some (real_width * focal_length / w2,
            -((x + (⌊w2 / 2⌋ : ℤ) - frame_center.1) * (real_width / w2)), -(17 / 10))) := by
    intro w2 hw2
    simp only [update_target_position]
    rw [if_neg hw2]
  have h2 := hkey (w / 2) (div_ne_zero hne two_ne_zero)
  have heq : real_width * focal_length / (w / 2)
      = 2 * (real_width * focal_length / w) := by
    field_simp
    ring
  rw [heq] at h2
  exact ⟨⟨_, hkey w hne⟩, ⟨_, h2⟩⟩

/-- Witness for C6 at the defaults of `VisionTracker.__init__`
(`focal_length = 800`, `real_width = 0.5`) with a box of width `100`: forward
distance exactly `4` meters, and `8` meters at width `50`. -/
theorem update_target_position_forward_witness :
    (0 : ℚ) < 100 ∧
    (∃ e : ℚ, update_target_position 800 (1 / 2) (320, 240) (some ⟨0, 0, 100, 50⟩)
        = .ok (some (4, e, -(17 / 10)))) ∧
    (∃ e : ℚ, update_target_position 800 (1 / 2) (320, 240) (some ⟨0, 0, 100 / 2, 50⟩)
        = .ok (some (8, e, -(17 / 10)))) := by
  obtain ⟨⟨e1, he1⟩, e2, he2⟩ :=
    update_target_position_forward 800 (1 / 2) (320, 240) 0 0 50 100 (by norm_num)
  refine ⟨by norm_num, ⟨e1, ?_⟩, ⟨e2, ?_⟩⟩
  · have hv : (1 / 2 : ℚ) * 800 / 100 = 4 := by norm_num
    rw [← hv]
    exact he1
  · have hv : 2 * ((1 / 2 : ℚ) * 800 / 100) = 8 := by norm_num
    rw [← hv]
    exact he2

/-! ### C4: zero-width bounding boxes are not rejected -/

/-- C4 counterexample: a successful tracker update that returns the zero-width
box `(10, 10, 0, 20)` is not rejected: the loop hands it to the position
estimator, whose unguarded division by `w` raises (`Except.error`), so the
cycle neither skips the estimator nor records an absent target position. -/
theorem zero_width_bbox_reaches_estimator :
    update_target_position 800 (1 / 2) (320, 240) (some ⟨10, 10, 0, 20⟩) = .error () ∧
    update_target_position 800 (1 / 2) (320, 240) (some ⟨10, 10, 0, 20⟩) ≠ .ok none ∧
    tracking_step ⟨1 / 2⟩ 800 (1 / 2) (320, 240)
        ⟨some ⟨0, 0, 50, 100⟩, 100, true, none⟩ (100 + 1 / 10) none (true, ⟨10, 10, 0, 20⟩)
      = .error () := by
  refine ⟨rfl, ?_, ?_⟩
  · intro hcontra
    exact Except.noConfusion hcontra
  · have hcond : ¬ ((⟨1 / 2⟩ : TrackerConfig).detection_interval
        ≤ (100 + 1 / 10 : ℚ) - 100 ∨ (some (⟨0, 0, 50, 100⟩ : BoundingBox)) = none) := by
      push_neg
      exact ⟨by norm_num, Option.some_ne_none _⟩
    simp only [tracking_step]
    rw [if_neg hcond]
    rfl

/-- C4 amended: the detect/track loop does not filter boxes by width — on a
successful tracker update the returned box always reaches
`_update_target_position`, and when its width is zero the division by `w`
raises `ZeroDivisionError` (the iteration errors out) instead of yielding an
absent target position. -/
theorem tracking_step_zero_width (cfg : TrackerConfig) (focal_length real_width : ℚ)
    (frame_center : ℚ × ℚ) (s : TrackerState) (now : ℚ) (det : Option BoundingBox)
    (b : BoundingBox)
    (h1 : now - s.last_detection_time < cfg.detection_interval)
    (h2 : s.target_bbox ≠ none)
    (h3 : s.tracking_initialized = true)
    (hw : b.w = 0) :
    tracking_step cfg focal_length real_width frame_center s now det (true, b)
      = .error () ∧
    update_target_position focal_length real_width frame_center (some b) = .error () := by
  have hupd : update_target_position focal_length real_width frame_center (some b)
      = .error () := by
    simp only [update_target_position]
    rw [if_pos hw]
  refine ⟨?_, hupd⟩
  have hcond : ¬ (cfg.detection_interval ≤ now - s.last_detection_time
      ∨ s.target_bbox = none) := by
    push_neg
    exact ⟨h1, h2⟩
  simp only [tracking_step]
  rw [if_neg hcond, h3]
  simp only [if_true]
  rw [hupd]
  rfl

/-- Witness for the amended C4: concrete mid-interval tracking state, tracker
reports success with a zero-width box, and the iteration errors out in the
estimator. -/
theorem tracking_step_zero_width_witness :
    ((100 + 1 / 10 : ℚ) - 100 < (1 / 2 : ℚ) ∧ (0 : ℚ) = 0) ∧
    tracking_step ⟨1 / 2⟩ 800 (1 / 2) (320, 240)
        ⟨some ⟨0, 0, 50, 100⟩, 100, true, none⟩ (100 + 1 / 10) (some ⟨5, 5, 30, 60⟩)
        (true, ⟨10, 10, 0, 20⟩)
      = .error () :=
  ⟨⟨by norm_num, rfl⟩,
   (tracking_step_zero_width ⟨1 / 2⟩ 800 (1 / 2) (320, 240)
      ⟨some ⟨0, 0, 50, 100⟩, 100, true, none⟩ (100 + 1 / 10) (some ⟨5, 5, 30, 60⟩)
      ⟨10, 10, 0, 20⟩ (by norm_num) (Option.some_ne_none _) rfl rfl).1⟩

/-! ### C9: tracker failure forces redetection -/

/-- C9: a failed tracker update resets `last_detection_time` to `0`, so (for
epoch times at least `detection_interval`, which `time.time()` always is) the
very next iteration runs a detection attempt instead of a tracker update; and
as long as detection keeps returning nothing, every following iteration is
again a detection attempt — no tracker update happens without an intervening
successful detection, so three consecutive tracker failures entail three
consecutive redetection attempts. -/
theorem tracker_failure_forces_redetection (cfg : TrackerConfig)
    (focal_length real_width : ℚ) (frame_center : ℚ × ℚ) (s : TrackerState)
    (now : ℚ) (det : Option BoundingBox) (b : BoundingBox)
    (h1 : now - s.last_detection_time < cfg.detection_interval)
    (h2 : s.target_bbox ≠ none)
    (h3 : s.tracking_initialized = true) :
    tracking_step cfg focal_length real_width frame_center s now det (false, b)
      = .ok ({ s with last_detection_time := 0 }, .trackerFailed) ∧
    (∀ now2 det2 trk2 s2 a2, cfg.detection_interval ≤ now2 →
      tracking_step cfg focal_length real_width frame_center
          { s with last_detection_time := 0 } now2 det2 trk2 = .ok (s2, a2) →
      (a2 = .detected ∨ a2 = .detectionEmpty) ∧
      (det2 = none → s2.last_detection_time = 0 ∧ s2.target_bbox = none)) ∧
    (∀ s3 : TrackerState, s3.target_bbox = none →
      ∀ now3 det3 trk3 s4 a4,
        tracking_step cfg focal_length real_width frame_center s3 now3 det3 trk3
          = .ok (s4, a4) →
        (a4 = .detected ∨ a4 = .detectionEmpty)) := by
  have hdetect : ∀ s0 : TrackerState, ∀ now0 det0 trk0,
      (cfg.detection_interval ≤ now0 - s0.last_detection_time ∨ s0.target_bbox = none) →
      ∀ s5 a5,
        tracking_step cfg focal_length real_width frame_center s0 now0 det0 trk0
          = .ok (s5, a5) →
        (a5 = .detected ∨ a5 = .detectionEmpty) ∧
        (det0 = none → s5.last_detection_time = s0.last_detection_time
          ∧ s5.target_bbox = none) := by
    intro s0 now0 det0 trk0 hcond s5 a5 hstep
    simp only [tracking_step] at hstep
    rw [if_pos hcond] at hstep
    match det0 with
    | none =>
      simp only [Except.ok.injEq, Prod.mk.injEq] at hstep
      obtain ⟨hs5, ha5⟩ := hstep
      refine ⟨Or.inr ha5.symm, fun _ => ?_⟩
      rw [← hs5]
      exact ⟨rfl, rfl⟩
    | some b0 =>
      dsimp only at hstep
      cases hupd : update_target_position focal_length real_width frame_center (some b0) with
      | error e =>
        rw [hupd] at hstep
        exact absurd hstep (by simp [Bind.bind, Except.bind])
      | ok tp =>
        rw [hupd] at hstep
        simp only [Bind.bind, Except.bind, Except.ok.injEq, Prod.mk.injEq] at hstep
        exact ⟨Or.inl hstep.2.symm, fun hnone => Option.noConfusion hnone⟩
  have hcond : ¬ (cfg.detection_interval ≤ now - s.last_detection_time
      ∨ s.target_bbox = none) := by
    push_neg
    exact ⟨h1, h2⟩
  refine ⟨?_, ?_, ?_⟩
  · simp only [tracking_step]
    rw [if_neg hcond, h3]
    simp only [if_true]
  · intro now2 det2 trk2 s2 a2 hnow2 hstep
    have hge : cfg.detection_interval
        ≤ now2 - ({ s with last_detection_time := 0 } : TrackerState).last_detection_time := by
      simpa using hnow2
    exact hdetect _ _ _ _ (Or.inl hge) _ _ hstep
  · intro s3 hs3 now3 det3 trk3 s4 a4 hstep
    exact (hdetect _ _ _ _ (Or.inr hs3) _ _ hstep).1

/-- Witness for C9: concrete mid-interval tracking state; the tracker fails,
`last_detection_time` is reset to `0`. -/
theorem tracker_failure_forces_redetection_witness :
    ((100 + 1 / 10 : ℚ) - 100 < (1 / 2 : ℚ)
      ∧ some (⟨0, 0, 50, 100⟩ : BoundingBox) ≠ none) ∧
    tracking_step ⟨1 / 2⟩ 800 (1 / 2) (320, 240)
        ⟨some ⟨0, 0, 50, 100⟩, 100, true, none⟩ (100 + 1 / 10) none (false, ⟨8, 8, 40, 90⟩)
      = .ok (⟨some ⟨0, 0, 50, 100⟩, 0, true, none⟩, .trackerFailed) :=
  ⟨⟨by norm_num, Option.some_ne_none _⟩,
   (tracker_failure_forces_redetection ⟨1 / 2⟩ 800 (1 / 2) (320, 240)
      ⟨some ⟨0, 0, 50, 100⟩, 100, true, none⟩ (100 + 1 / 10) none ⟨8, 8, 40, 90⟩
      (by norm_num) (Option.some_ne_none _) rfl).1⟩

end FreeTrack
